import Mathlib

/-!
A shallow embedding of the chat-orchestration logic of
`bedrock/bedrock_chatbot.py`: the session-state data model, the attachment
tracker (`display_uploaded_images`), the memory-log normalization
(`langchain_messages_format`), the session lifecycle (`new_chat`, the
state-initializing part of `init_conversationchain`), the sidebar parameter
resolution (`render_sidebar`), and the per-render orchestration of `main`
(user-message append, conversation-chain invocation, assistant-message
append).  External collaborators (Streamlit widgets, PIL image decoding, the
LangChain conversation chain and the Bedrock model) are modelled as explicit
function parameters or, where their observable behaviour is fixed by the
spec, as definitions marked `Modelled from the spec`.
-/

/-- An Anthropic-style content block: either a text block
(`\x7b"type": "text", "text": t\x7d`) or a base64 inline image block
(`\x7b"type": "image", "source": \x7b"type": "base64", "media_type": mt,
"data": d\x7d\x7d`), as built at `bedrock_chatbot.py:289-298`. -/
inductive ContentBlock
  | text (t : String)
  | image (media_type : String) (data : String)
deriving DecidableEq, Repr

/-- The media-type tag of an image block, `none` for a text block. -/
def ContentBlock.mediaTypeOf : ContentBlock → Option String
  | ContentBlock.image mt _ => some mt
  | ContentBlock.text _ => none

/-- The dict returned by `ConversationChain.invoke`; the UI reads only its
`"response"` entry (`display_assistant_message`, line 244-245), so the model
keeps that field. -/
structure ChainResult where
  response : String
deriving DecidableEq, Repr

/-- The `content` entry of a session message: a plain string (the greeting),
a list of content blocks (a formatted user prompt), or the dict returned by
the conversation chain (an assistant response). -/
inductive MsgContent
  | str (s : String)
  | blocks (bs : List ContentBlock)
  | resp (r : ChainResult)
deriving DecidableEq, Repr

/-- One entry of `st.session_state.messages`: a dict with a `"role"` key, a
`"content"` key, and an optional `"images"` key (present only on user
messages created with attachments, line 367-369); `images = none` models the
key being absent. -/
structure Message where
  role : String
  content : MsgContent
  images : Option (List String)
deriving DecidableEq, Repr

/-- `INIT_MESSAGE` (lines 17-20): the fixed assistant greeting. -/
def INIT_MESSAGE : Message :=
  { role := "assistant",
    content := MsgContent.str "Hi! I\x27m your AI Bot on Bedrock. How may I help you?",
    images := none }

/-- The `content` of a LangChain memory message as this program manipulates
it (`langchain_messages_format`, lines 248-264): a plain string, a list of
content blocks (whose first element is a type-tagged block carrying no
`"role"` key), or a singleton list `[\x7b"role": r, "content": inner\x7d]`
whose first element does carry a `"role"` key. -/
inductive LCContent
  | str (s : String)
  | blocks (bs : List ContentBlock)
  | roleList (role : String) (inner : LCContent)
deriving DecidableEq, Repr

/-- Whether the content is the role-tagged list shape, i.e. the Python test
`isinstance(content, list) and "role" in content[0]` succeeds. -/
def LCContent.isRoleTagged : LCContent → Bool
  | LCContent.roleList _ _ => true
  | _ => false

/-- One entry of `st.session_state["langchain_messages"]`: an `AIMessage`
(`type = "ai"`) or `HumanMessage` (`type = "human"`) with its content. -/
structure LCMessage where
  type : String
  content : LCContent
deriving DecidableEq, Repr

/-- A Streamlit `UploadedFile`: its stable `file_id`, its declared MIME
`type` (e.g. `"image/png"` for a png upload), and its raw bytes. -/
structure UploadedFile where
  file_id : String
  type : String
  content : List Nat
deriving DecidableEq, Repr

/-- The base64 alphabet. -/
def b64_table : List Char :=
  "ABCDEFGHIJKLMNOPQRSTUVWXYZabcdefghijklmnopqrstuvwxyz0123456789+/".toList

/-- The base64 digit for a 6-bit value. -/
def b64_char (n : Nat) : Char := b64_table.getD n 'A'

/-- Standard base64 of a byte list, three bytes to four digits with `=`
padding, as `base64.b64encode` computes it (line 286). -/
def b64encode_aux : List Nat → List Char
  | [] => []
  | [a] => [b64_char (a / 4), b64_char (a % 4 * 16), '=', '=']
  | [a, b] => [b64_char (a / 4), b64_char (a % 4 * 16 + b / 16),
      b64_char (b % 16 * 4), '=']
  | a :: b :: c :: rest =>
      b64_char (a / 4) :: b64_char (a % 4 * 16 + b / 16) ::
        b64_char (b % 16 * 4 + c / 64) :: b64_char (c % 64) ::
          b64encode_aux rest

/-- `base64.b64encode(bytes).decode("utf8")` (lines 286-288). -/
def b64encode (bytes : List Nat) : String := String.mk (b64encode_aux bytes)

/-- Modelled from the spec: `ChatModel.format_prompt` lives in `models.py`,
which is not under `src/`; per the spec the Model Adapter turns raw user
text into "the formatted text block(s)" that begin the content-block
sequence, and `display_user_message` (line 235) reads the text back out of
`content[0]["text"]`, so the formatted prompt is the singleton text block. -/
def format_prompt (t : String) : List ContentBlock := [ContentBlock.text t]

/-- `display_uploaded_images` (lines 267-305), its pure content: walk the
uploaded files in order; for each file whose `file_id` is not in
`message_images_list`, record its id in `uploaded_file_ids` and append a
base64 inline block with the hard-coded media type `"image/jpeg"` whose data
is the base64 of the PIL re-encoding of the file (PIL, an external library,
is the `reencode` parameter).  Returns `(content_images, uploaded_file_ids)`;
the thumbnail-grid rendering is a pure display effect and is omitted. -/
def display_uploaded_images (reencode : List Nat → List Nat) :
    List UploadedFile → List String → List ContentBlock × List String
  | [], _ => ([], [])
  | f :: rest, message_images_list =>
      if f.file_id ∈ message_images_list then
        display_uploaded_images reencode rest message_images_list
      else
        let p := display_uploaded_images reencode rest message_images_list
        (ContentBlock.image "image/jpeg" (b64encode (reencode f.content)) :: p.1,
          f.file_id :: p.2)

/-- The list comprehension at `main` lines 346-353: every image id of every
user message whose `"images"` entry is present and non-empty, in message
order. -/
def message_images_list (msgs : List Message) : List String :=
  msgs.foldr
    (fun m acc =>
      if m.role == "user" then
        match m.images with
        | some imgs => if imgs.isEmpty then acc else imgs ++ acc
        | none => acc
      else acc)
    []

/-- The per-entry step of `langchain_messages_format` (lines 256-263): when
the content is a list whose first element carries a `"role"` key, an
`AIMessage` or `HumanMessage` is rebuilt around `content[0]["content"]`;
any other entry is left as it is. -/
def format_message (m : LCMessage) : LCMessage :=
  match m.content with
  | LCContent.roleList _ inner =>
      if m.type == "ai" then { type := "ai", content := inner }
      else if m.type == "human" then { type := "human", content := inner }
      else m
  | _ => m

/-- `langchain_messages_format` (lines 248-264): rewrite each entry in
place and return the list. -/
def langchain_messages_format (msgs : List LCMessage) : List LCMessage :=
  msgs.map format_message

/-- `st.session_state`, restricted to the fields this orchestration reads
and writes: the visible message log, the LangChain memory log, the
file-uploader key (the upload epoch) and the widget key. -/
structure SessionState where
  messages : List Message
  langchain_messages : List LCMessage
  file_uploader_key : Nat
  widget_key : Nat
deriving DecidableEq, Repr

/-- `new_chat` (lines 175-181): reset `messages` to `[INIT_MESSAGE]`, clear
`langchain_messages`, and set `file_uploader_key` to `rand_val`, the value
drawn by `random.randint(1, 100)`. -/
def new_chat (rand_val : Nat) (s : SessionState) : SessionState :=
  { messages := [INIT_MESSAGE],
    langchain_messages := [],
    file_uploader_key := rand_val,
    widget_key := s.widget_key }

/-- The session-state effect of `init_conversationchain` (lines 158-159):
if no `messages` entry exists yet, create it as `[INIT_MESSAGE]`. -/
def init_messages (cur : Option (List Message)) : List Message :=
  match cur with
  | none => [INIT_MESSAGE]
  | some ms => ms

/-- The configuration record of a model, restricted to the flag that the
`model_kwargs` construction reads; `none` models an absent key, read through
`.get("system_prompt_disabled", False)`. -/
structure ModelConfig where
  system_prompt_disabled : Option Bool
deriving DecidableEq, Repr

/-- The `model_kwargs` dict built at `render_sidebar` lines 128-135; the
optional `system` field models the `"system"` key being present or absent. -/
structure ModelKwargs where
  temperature : Rat
  top_p : Rat
  top_k : Nat
  max_tokens : Nat
  system : Option String
deriving DecidableEq, Repr

/-- The tail of `render_sidebar` (lines 128-138): package the live widget
values into `model_kwargs`, adding the `"system"` key only when the model
configuration does not mark the system prompt disabled. -/
def render_sidebar_kwargs (cfg : ModelConfig) (temperature top_p : Rat)
    (top_k max_tokens : Nat) (system_prompt : String) : ModelKwargs :=
  { temperature := temperature,
    top_p := top_p,
    top_k := top_k,
    max_tokens := max_tokens,
    system :=
      if cfg.system_prompt_disabled.getD false then none
      else some system_prompt }

/-- Python truthiness of the `st.chat_input()` result (`if prompt:`,
lines 363 and 372): `none` is the widget returning `None`, and an empty
string is falsy. -/
def truthy (prompt : Option String) : Bool :=
  match prompt with
  | none => false
  | some p => p != ""

/-- An LLM backend: given the message sequence the chain sends it, it
streams a list of text tokens and then either returns normally (`none`) or
raises (`some e`, the exception message), with the listed tokens already
streamed to the callbacks before the failure. -/
def LLMBackend : Type := List LCMessage → List String × Option String

/-- The last `2 * k` memory messages, i.e. `ConversationBufferWindowMemory`
with `k = memory_window` (lines 148-153).  Modelled from the spec: the
Conversation Memory library is external; its `window(k)` "returns the last
`k` exchanges" and with `memoryWindow = 0` "contributes no prior turns". -/
def window_k (k : Nat) (mem : List LCMessage) : List LCMessage :=
  if k = 0 then [] else mem.drop (mem.length - 2 * k)

/-- The single input message `\x7b"role": "user", "content":
formatted_prompt\x7d` (line 387) as the chain's prompt template delivers it
to the model: a human message whose content is the formatted prompt. -/
def chain_input (fp : List ContentBlock) : LCMessage :=
  { type := "human", content := LCContent.blocks fp }

/-- The successive values of `StreamHandler.text` after each
`on_llm_new_token` call (lines 39-44), starting from the accumulator. -/
def stream_snapshots_from (acc : String) : List String → List String
  | [] => []
  | t :: rest => (acc ++ t) :: stream_snapshots_from (acc ++ t) rest

/-- The successive display-buffer contents rendered by `StreamHandler`
(initial `text = ""`, line 37): one re-render per streamed token. -/
def stream_snapshots (tokens : List String) : List String :=
  stream_snapshots_from "" tokens

/-- The memory entry the chain history records for the user side of a turn:
a `HumanMessage` whose content is the raw input list
`[\x7b"role": "user", "content": formatted_prompt\x7d]` — the role-tagged
shape that `langchain_messages_format` later normalizes.  Modelled from the
spec: the Conversation Memory library persisting the turn is external. -/
def memory_human_entry (fp : List ContentBlock) : LCMessage :=
  { type := "human", content := LCContent.roleList "user" (LCContent.blocks fp) }

/-- The memory entry recorded for the assistant side of a turn.  Modelled
from the spec: the Conversation Memory library persisting the turn is
external. -/
def memory_ai_entry (resp : String) : LCMessage :=
  { type := "ai", content := LCContent.str resp }

/-- Modelled from the spec: `ConversationChain.invoke` (the external chain
configured at lines 141-155 with `CLAUDE_PROMPT = history ++ input` and a
window memory of size `k`) sends the model the last `k` exchanges of the
memory followed by the input messages, and streams the model's tokens to
the callbacks.  Returns the prompt it sent together with the backend's
outcome. -/
def conversation_invoke (llm : LLMBackend) (k : Nat)
    (memory input_msgs : List LCMessage) :
    List LCMessage × (List String × Option String) :=
  let prompt_sent := window_k k memory ++ input_msgs
  (prompt_sent, llm prompt_sent)

/-- `generate_response` (lines 164-172): invoke the conversation chain on
the input with a fresh `StreamHandler` as callback. -/
def generate_response (llm : LLMBackend) (k : Nat)
    (memory input_msgs : List LCMessage) :
    List LCMessage × (List String × Option String) :=
  conversation_invoke llm k memory input_msgs

/-- How a render can fail: `nameError` is the `NameError` raised at line 387
when `formatted_prompt` was never assigned in this render, `invokeError e`
is an exception `e` propagating out of `conversation.invoke`, and
`indexError` is `st.session_state.messages[-1]` on an empty log
(line 384). -/
inductive RenderError
  | nameError
  | invokeError (e : String)
  | indexError
deriving DecidableEq, Repr

/-- The observable outcome of one render of `main`: the session state when
the render finished (or when the exception escaped), the prompts that were
sent to the model backend, the successive display-buffer snapshots streamed
during the render, and the exception, if one escaped. -/
structure RenderResult where
  state : SessionState
  invocations : List (List LCMessage)
  renders : List String
  error : Option RenderError
deriving Repr

/-- The `formatted_prompt` value assigned when the prompt is truthy: the
formatted text blocks, extended with the unconsumed attachments' content
images when the upload branch is taken (lines 363-366), the bare formatted
text otherwise (line 373). -/
def staged_prompt (reencode : List Nat → List Nat) (s : SessionState)
    (p : String) (files : List UploadedFile) : List ContentBlock :=
  if !files.isEmpty && decide ((message_images_list s.messages).length < files.length) then
    format_prompt p ++
      (display_uploaded_images reencode files (message_images_list s.messages)).1
  else format_prompt p

/-- The user message appended for a truthy prompt: with the `"images"` key
listing the newly consumed ids when the upload branch is taken
(lines 367-369), without it otherwise (line 374). -/
def staged_user_message (reencode : List Nat → List Nat) (s : SessionState)
    (p : String) (files : List UploadedFile) : Message :=
  if !files.isEmpty && decide ((message_images_list s.messages).length < files.length) then
    { role := "user",
      content := MsgContent.blocks (staged_prompt reencode s p files),
      images := some (display_uploaded_images reencode files (message_images_list s.messages)).2 }
  else
    { role := "user",
      content := MsgContent.blocks (staged_prompt reencode s p files),
      images := none }

/-- The generation phase of `main` (lines 384-390) run on the state reached
after the append phase: if the last message is not from the assistant,
invoke the chain on `[\x7b"role": "user", "content": formatted_prompt\x7d]`
— raising `NameError` when `formatted_prompt` (`fp`) was never assigned —
and append the response as the assistant message; otherwise do nothing. -/
def generate_phase (llm : LLMBackend) (k : Nat) (msgs : List Message)
    (lc : List LCMessage) (fp : Option (List ContentBlock))
    (fk wk : Nat) : RenderResult :=
  match msgs.getLast? with
  | none =>
      { state := ⟨msgs, lc, fk, wk⟩, invocations := [], renders := [],
        error := some RenderError.indexError }
  | some lastm =>
      if lastm.role != "assistant" then
        match fp with
        | none =>
            { state := ⟨msgs, lc, fk, wk⟩, invocations := [], renders := [],
              error := some RenderError.nameError }
        | some fprompt =>
            let inv := generate_response llm k lc [chain_input fprompt]
            match inv.2.2 with
            | some e =>
                { state := ⟨msgs, lc, fk, wk⟩, invocations := [inv.1],
                  renders := stream_snapshots inv.2.1,
                  error := some (RenderError.invokeError e) }
            | none =>
                let resp := String.join inv.2.1
                { state :=
                    ⟨msgs ++ [{ role := "assistant",
                                content := MsgContent.resp ⟨resp⟩,
                                images := none }],
                      lc ++ [memory_human_entry fprompt, memory_ai_entry resp],
                      fk, wk⟩,
                  invocations := [inv.1],
                  renders := stream_snapshots inv.2.1,
                  error := none }
      else
        { state := ⟨msgs, lc, fk, wk⟩, invocations := [], renders := [],
          error := none }

/-- One render of `main` (lines 308-390), state-relevant part: compute the
consumed-image list; when unconsumed uploads exist and the prompt is truthy,
append the user message carrying text plus content images; when only the
prompt is truthy, append the plain user message; normalize the LangChain
memory log (line 379-381); then run the generation phase.  `reencode` is
PIL's decode/re-encode, `llm` the model backend, `k` the memory window. -/
def main_step (reencode : List Nat → List Nat) (llm : LLMBackend) (k : Nat)
    (s : SessionState) (prompt : Option String)
    (files : List UploadedFile) : RenderResult :=
  let appended : Option (List ContentBlock × List Message) :=
    if truthy prompt then
      let p := prompt.getD ""
      some (staged_prompt reencode s p files,
        s.messages ++ [staged_user_message reencode s p files])
    else none
  let msgs1 := match appended with
    | some x => x.2
    | none => s.messages
  let fp : Option (List ContentBlock) := match appended with
    | some x => some x.1
    | none => none
  let lc1 := langchain_messages_format s.langchain_messages
  generate_phase llm k msgs1 lc1 fp s.file_uploader_key s.widget_key

/-- A memory entry whose role-tagged content (if any) wraps content that is
not itself role-tagged — the shape of every entry this program actually
stores (a role-tagged entry always wraps a content-block list). -/
def flat_message (m : LCMessage) : Bool :=
  match m.content with
  | LCContent.roleList _ inner => !inner.isRoleTagged
  | _ => true

theorem format_message_idem (m : LCMessage) (h : flat_message m = true) :
    format_message (format_message m) = format_message m := by
  cases m with
  | mk ty c =>
    cases c with
    | str s => simp [format_message]
    | blocks bs => simp [format_message]
    | roleList r inner =>
      cases inner with
      | str s =>
        by_cases hai : ty = "ai" <;> by_cases hh : ty = "human" <;>
          simp [format_message, hai, hh]
      | blocks bs =>
        by_cases hai : ty = "ai" <;> by_cases hh : ty = "human" <;>
          simp [format_message, hai, hh]
      | roleList r2 inner2 =>
        simp [flat_message, LCContent.isRoleTagged] at h

theorem main_step_truthy (reencode : List Nat → List Nat) (llm : LLMBackend)
    (k : Nat) (s : SessionState) (p : String) (files : List UploadedFile)
    (hp : p ≠ "") :
    main_step reencode llm k s (some p) files =
      generate_phase llm k
        (s.messages ++ [staged_user_message reencode s p files])
        (langchain_messages_format s.langchain_messages)
        (some (staged_prompt reencode s p files))
        s.file_uploader_key s.widget_key := by
  simp [main_step, truthy, hp]

theorem main_step_falsy (reencode : List Nat → List Nat) (llm : LLMBackend)
    (k : Nat) (s : SessionState) (prompt : Option String)
    (files : List UploadedFile) (hp : truthy prompt = false) :
    main_step reencode llm k s prompt files =
      generate_phase llm k s.messages
        (langchain_messages_format s.langchain_messages)
        none s.file_uploader_key s.widget_key := by
  simp [main_step, hp]

theorem generate_phase_none_fp (llm : LLMBackend) (k : Nat)
    (msgs : List Message) (lc : List LCMessage) (fk wk : Nat) :
    (generate_phase llm k msgs lc none fk wk).state.messages = msgs ∧
      (generate_phase llm k msgs lc none fk wk).invocations = [] := by
  simp only [generate_phase]
  split
  · exact ⟨rfl, rfl⟩
  · split
    · exact ⟨rfl, rfl⟩
    · exact ⟨rfl, rfl⟩

theorem staged_user_message_role (reencode : List Nat → List Nat)
    (s : SessionState) (p : String) (files : List UploadedFile) :
    (staged_user_message reencode s p files).role = "user" := by
  simp only [staged_user_message]
  split <;> rfl

theorem window_k_nil (k : Nat) : window_k k [] = [] := by
  simp [window_k]

theorem stream_snapshots_from_length (acc : String) (toks : List String) :
    (stream_snapshots_from acc toks).length = toks.length := by
  induction toks generalizing acc with
  | nil => rfl
  | cons t rest ih => simp [stream_snapshots_from, ih]

theorem stream_snapshots_from_zero (acc t : String) (rest : List String) :
    (stream_snapshots_from acc (t :: rest)).get? 0 = some (acc ++ t) := rfl

theorem stream_snapshots_from_step (acc : String) (toks : List String)
    (i : Nat) (u t : String)
    (h1 : (stream_snapshots_from acc toks).get? i = some u)
    (h2 : toks.get? (i + 1) = some t) :
    (stream_snapshots_from acc toks).get? (i + 1) = some (u ++ t) := by
  induction toks generalizing acc i with
  | nil => simp [stream_snapshots_from] at h1
  | cons hd tl ih =>
    cases i with
    | zero =>
      cases tl with
      | nil => simp at h2
      | cons t2 rest =>
        simp [stream_snapshots_from] at h1 h2 ⊢
        rw [← h1, ← h2]
    | succ j =>
      have h1' : (stream_snapshots_from (acc ++ hd) tl).get? j = some u := h1
      have h2' : tl.get? (j + 1) = some t := h2
      exact ih (acc ++ hd) j h1' h2'

theorem stream_snapshots_zero (t : String) (rest : List String) :
    (stream_snapshots (t :: rest)).get? 0 = some t := by
  simp [stream_snapshots, stream_snapshots_from]

theorem stream_snapshots_step (toks : List String) (i : Nat) (u t : String)
    (h1 : (stream_snapshots toks).get? i = some u)
    (h2 : toks.get? (i + 1) = some t) :
    (stream_snapshots toks).get? (i + 1) = some (u ++ t) :=
  stream_snapshots_from_step "" toks i u t h1 h2

theorem generate_phase_invoke_ok (llm : LLMBackend) (k : Nat)
    (msgs : List Message) (lc : List LCMessage)
    (fprompt : List ContentBlock) (fk wk : Nat) (lastm : Message)
    (toks : List String)
    (hl : msgs.getLast? = some lastm) (hr : lastm.role ≠ "assistant")
    (h : llm (window_k k lc ++ [chain_input fprompt]) = (toks, none)) :
    generate_phase llm k msgs lc (some fprompt) fk wk =
      { state :=
          ⟨msgs ++ [{ role := "assistant",
                      content := MsgContent.resp ⟨String.join toks⟩,
                      images := none }],
            lc ++ [memory_human_entry fprompt,
              memory_ai_entry (String.join toks)], fk, wk⟩,
        invocations := [window_k k lc ++ [chain_input fprompt]],
        renders := stream_snapshots toks,
        error := none } := by
  simp [generate_phase, hl, hr, generate_response, conversation_invoke, h]

theorem generate_phase_invoke_err (llm : LLMBackend) (k : Nat)
    (msgs : List Message) (lc : List LCMessage)
    (fprompt : List ContentBlock) (fk wk : Nat) (lastm : Message)
    (toks : List String) (e : String)
    (hl : msgs.getLast? = some lastm) (hr : lastm.role ≠ "assistant")
    (h : llm (window_k k lc ++ [chain_input fprompt]) = (toks, some e)) :
    generate_phase llm k msgs lc (some fprompt) fk wk =
      { state := ⟨msgs, lc, fk, wk⟩,
        invocations := [window_k k lc ++ [chain_input fprompt]],
        renders := stream_snapshots toks,
        error := some (RenderError.invokeError e) } := by
  simp [generate_phase, hl, hr, generate_response, conversation_invoke, h]

/-- C3: for every model configuration that marks the system prompt disabled
(`system_prompt_disabled = true`), the produced `model_kwargs` contains no
`system` field at all; whenever it is not marked disabled, the field is
present and carries the live system-prompt widget value. -/
theorem c3_system_prompt_omitted (cfg : ModelConfig) (temperature top_p : Rat)
    (top_k max_tokens : Nat) (system_prompt : String) :
    (cfg.system_prompt_disabled = some true →
      (render_sidebar_kwargs cfg temperature top_p top_k max_tokens
        system_prompt).system = none) ∧
    (cfg.system_prompt_disabled.getD false = false →
      (render_sidebar_kwargs cfg temperature top_p top_k max_tokens
        system_prompt).system = some system_prompt) := by
  constructor <;> intro h <;> simp [render_sidebar_kwargs, h]

/-- Witness for C3 at a config with the flag set and one with it absent. -/
theorem c3_system_prompt_omitted_witness :
    (render_sidebar_kwargs ⟨some true⟩ 1 1 250 4096 "live").system = none ∧
    (render_sidebar_kwargs ⟨none⟩ 1 1 250 4096 "live").system = some "live" :=
  ⟨(c3_system_prompt_omitted ⟨some true⟩ 1 1 250 4096 "live").1 rfl,
    (c3_system_prompt_omitted ⟨none⟩ 1 1 250 4096 "live").2 rfl⟩

/-- C5, counterexample: `new_chat` draws the new uploader key from
`random.randint(1, 100)`, and the draw may coincide with the previous key —
here the session's key is `7` and the (legal) draw is `7`, so the epoch
after the reset does NOT differ from the epoch before, refuting the claim
that it always does. -/
theorem c5_reset_counterexample :
    1 ≤ 7 ∧ 7 ≤ 100 ∧
      (new_chat 7 ⟨[], [], 7, 0⟩).file_uploader_key =
        (⟨[], [], 7, 0⟩ : SessionState).file_uploader_key := by
  exact ⟨by decide, by decide, rfl⟩

/-- C5, amended: `new_chat` resets `messages` to exactly `[INIT_MESSAGE]`,
empties the memory-backed log, and sets the upload epoch to the freshly
drawn random value in `[1, 100]`; the new epoch need not differ from the
previous one, though it always differs from the initial epoch `0`. -/
theorem c5_reset_amended (s : SessionState) (n : Nat)
    (h1 : 1 ≤ n) (h2 : n ≤ 100) :
    (new_chat n s).messages = [INIT_MESSAGE] ∧
    (new_chat n s).langchain_messages = [] ∧
    (new_chat n s).file_uploader_key = n ∧
    (s.file_uploader_key = 0 →
      (new_chat n s).file_uploader_key ≠ s.file_uploader_key) := by
  refine ⟨rfl, rfl, rfl, ?_⟩
  intro h0
  simp only [new_chat, h0]
  omega

/-- Witness for C5 at a fresh-epoch session and the draw `7`. -/
theorem c5_reset_amended_witness :
    (new_chat 7 ⟨[], [], 0, 3⟩).messages = [INIT_MESSAGE] ∧
    (new_chat 7 ⟨[], [], 0, 3⟩).langchain_messages = [] ∧
    (new_chat 7 ⟨[], [], 0, 3⟩).file_uploader_key = 7 ∧
    ((⟨[], [], 0, 3⟩ : SessionState).file_uploader_key = 0 →
      (new_chat 7 ⟨[], [], 0, 3⟩).file_uploader_key ≠
        (⟨[], [], 0, 3⟩ : SessionState).file_uploader_key) :=
  c5_reset_amended ⟨[], [], 0, 3⟩ 7 (by decide) (by decide)

/-- C6: immediately after state initialization on a session with no prior
state, and immediately after a reset, the first message is the fixed
assistant greeting. -/
theorem c6_greeting_first :
    (init_messages none).head? = some INIT_MESSAGE ∧
    INIT_MESSAGE.role = "assistant" ∧
    ∀ (n : Nat) (s : SessionState),
      ((new_chat n s).messages).head? = some INIT_MESSAGE :=
  ⟨rfl, rfl, fun _ _ => rfl⟩

/-- C9, counterexample: normalization is not idempotent on every entry — an
entry whose role-tagged content wraps another role-tagged list is rewritten
again by the second pass, so applying the normalization twice differs from
applying it once. -/
theorem c9_idempotent_counterexample :
    langchain_messages_format (langchain_messages_format
      [⟨"human", LCContent.roleList "user"
        (LCContent.roleList "user" (LCContent.blocks []))⟩]) ≠
    langchain_messages_format
      [⟨"human", LCContent.roleList "user"
        (LCContent.roleList "user" (LCContent.blocks []))⟩] := by
  decide

/-- C9, amended: on memory logs whose role-tagged entries wrap content that
is not itself role-tagged (the only shape this program stores), the
normalization is idempotent; in particular an already-normalized entry is
left unchanged by a further pass. -/
theorem c9_idempotent_amended (msgs : List LCMessage)
    (h : ∀ m ∈ msgs, flat_message m = true) :
    langchain_messages_format (langchain_messages_format msgs) =
      langchain_messages_format msgs := by
  induction msgs with
  | nil => rfl
  | cons m rest ih =>
    have hm : flat_message m = true := h m (List.mem_cons_self m rest)
    have hrest : ∀ x ∈ rest, flat_message x = true :=
      fun x hx => h x (List.mem_cons_of_mem m hx)
    simp only [langchain_messages_format, List.map_cons] at ih ⊢
    rw [format_message_idem m hm]
    exact congrArg _ (ih hrest)

/-- Witness for C9 on a one-entry log in the stored shape. -/
theorem c9_idempotent_amended_witness :
    (∀ m ∈ [(⟨"human", LCContent.roleList "user" (LCContent.blocks [])⟩ : LCMessage)],
      flat_message m = true) ∧
    langchain_messages_format (langchain_messages_format
      [⟨"human", LCContent.roleList "user" (LCContent.blocks [])⟩]) =
    langchain_messages_format
      [⟨"human", LCContent.roleList "user" (LCContent.blocks [])⟩] :=
  ⟨by decide, c9_idempotent_amended _ (by decide)⟩

/-- C2, counterexample: the attachment tracker tags every produced block
with the hard-coded media type `"image/jpeg"`, even for an attachment whose
own media type is `"image/png"`, refuting the claim that each block is
tagged with that attachment's media type. -/
theorem c2_tracker_counterexample :
    ((display_uploaded_images (fun b => b)
        [⟨"id1", "image/png", [137, 80, 78, 71]⟩] []).1.map
      ContentBlock.mediaTypeOf) = [some "image/jpeg"] ∧
    (⟨"id1", "image/png", [137, 80, 78, 71]⟩ : UploadedFile).type =
      "image/png" ∧
    ("image/jpeg" : String) ≠ "image/png" := by
  refine ⟨by decide, rfl, by decide⟩

/-- C2, amended: given the consumed identifiers and the current uploads,
the tracker produces content blocks for exactly the uploads whose id is not
consumed, in upload order, each re-encoded as a base64 inline block tagged
with the constant media type `"image/jpeg"` (regardless of the attachment's
own media type), and returns the ordered block list plus the newly consumed
identifiers. -/
theorem c2_tracker_amended (reencode : List Nat → List Nat)
    (files : List UploadedFile) (consumed : List String) :
    (display_uploaded_images reencode files consumed).1 =
      (files.filter fun f => decide (f.file_id ∉ consumed)).map
        (fun f => ContentBlock.image "image/jpeg"
          (b64encode (reencode f.content))) ∧
    (display_uploaded_images reencode files consumed).2 =
      (files.filter fun f => decide (f.file_id ∉ consumed)).map
        UploadedFile.file_id := by
  induction files with
  | nil => exact ⟨rfl, rfl⟩
  | cons f rest ih =>
    by_cases h : f.file_id ∈ consumed <;>
      simp [display_uploaded_images, List.filter_cons, h, ih.1, ih.2]

/-- C4: in every render whose submitted prompt is empty (`None` or the
empty string), whatever attachments sit in the upload widget, no user
message is appended — the message log is unchanged — and the model backend
is never invoked. -/
theorem c4_empty_prompt_no_turn (reencode : List Nat → List Nat)
    (llm : LLMBackend) (k : Nat) (s : SessionState)
    (prompt : Option String) (files : List UploadedFile)
    (hp : truthy prompt = false) :
    (main_step reencode llm k s prompt files).state.messages = s.messages ∧
    (main_step reencode llm k s prompt files).invocations = [] := by
  rw [main_step_falsy reencode llm k s prompt files hp]
  exact generate_phase_none_fp llm k s.messages
    (langchain_messages_format s.langchain_messages)
    s.file_uploader_key s.widget_key

/-- Witness for C4: a fresh session, no prompt, one pending upload. -/
theorem c4_empty_prompt_no_turn_witness :
    (main_step (fun b => b) (fun _ => ([], none)) 10
        ⟨[INIT_MESSAGE], [], 0, 1⟩ none
        [⟨"id1", "image/png", [1, 2]⟩]).state.messages =
      (⟨[INIT_MESSAGE], [], 0, 1⟩ : SessionState).messages ∧
    (main_step (fun b => b) (fun _ => ([], none)) 10
        ⟨[INIT_MESSAGE], [], 0, 1⟩ none
        [⟨"id1", "image/png", [1, 2]⟩]).invocations = [] :=
  c4_empty_prompt_no_turn (fun b => b) (fun _ => ([], none)) 10
    ⟨[INIT_MESSAGE], [], 0, 1⟩ none [⟨"id1", "image/png", [1, 2]⟩] rfl

/-- C10: when the last message of the session log has role `user` but the
prompt of the current render is empty, neither branch assigned
`formatted_prompt`, so the generation branch raises `NameError` and the
render fails without appending an assistant message; the log is left
unchanged. -/
theorem c10_unassigned_prompt_name_error (reencode : List Nat → List Nat)
    (llm : LLMBackend) (k : Nat) (s : SessionState)
    (prompt : Option String) (files : List UploadedFile) (lastm : Message)
    (hl : s.messages.getLast? = some lastm) (hr : lastm.role = "user")
    (hp : truthy prompt = false) :
    (main_step reencode llm k s prompt files).error =
      some RenderError.nameError ∧
    (main_step reencode llm k s prompt files).state.messages = s.messages := by
  rw [main_step_falsy reencode llm k s prompt files hp]
  simp [generate_phase, hl, hr]

/-- Witness for C10: a session whose last message is a user message and a
render with no prompt. -/
theorem c10_unassigned_prompt_name_error_witness :
    (main_step (fun b => b) (fun _ => ([], none)) 10
        ⟨[INIT_MESSAGE, ⟨"user", MsgContent.str "x", none⟩], [], 0, 1⟩
        none []).error = some RenderError.nameError ∧
    (main_step (fun b => b) (fun _ => ([], none)) 10
        ⟨[INIT_MESSAGE, ⟨"user", MsgContent.str "x", none⟩], [], 0, 1⟩
        none []).state.messages =
      (⟨[INIT_MESSAGE, ⟨"user", MsgContent.str "x", none⟩], [], 0, 1⟩ :
        SessionState).messages :=
  c10_unassigned_prompt_name_error (fun b => b) (fun _ => ([], none)) 10
    ⟨[INIT_MESSAGE, ⟨"user", MsgContent.str "x", none⟩], [], 0, 1⟩
    none [] ⟨"user", MsgContent.str "x", none⟩ rfl rfl rfl

theorem generate_phase_outcomes (llm : LLMBackend) (k : Nat)
    (msgs : List Message) (lc : List LCMessage)
    (fp : Option (List ContentBlock)) (fk wk : Nat) :
    (∀ e, (generate_phase llm k msgs lc fp fk wk).error =
        some (RenderError.invokeError e) →
      (generate_phase llm k msgs lc fp fk wk).invocations.length = 1 ∧
      ∃ m, (generate_phase llm k msgs lc fp fk wk).state.messages.getLast? =
          some m ∧ m.role ≠ "assistant") ∧
    ((generate_phase llm k msgs lc fp fk wk).error = none →
      (generate_phase llm k msgs lc fp fk wk).invocations ≠ [] →
      ∃ toks, (generate_phase llm k msgs lc fp fk wk).renders =
          stream_snapshots toks ∧
        (generate_phase llm k msgs lc fp fk wk).state.messages.getLast? =
          some { role := "assistant",
                 content := MsgContent.resp ⟨String.join toks⟩,
                 images := none }) := by
  simp only [generate_phase]
  split
  · constructor
    · intro e he
      simp at he
    · intro h1 _
      simp at h1
  case _ lastm heq =>
    split
    case _ hcond =>
      split
      · constructor
        · intro e he
          simp at he
        · intro h1 _
          simp at h1
      case _ fprompt =>
        split
        case _ e0 hllm =>
          constructor
          · intro e _
            refine ⟨rfl, lastm, heq, ?_⟩
            simpa using hcond
          · intro h1 _
            simp at h1
        case _ hllm =>
          constructor
          · intro e he
            simp at he
          · intro _ _
            refine ⟨(generate_response llm k lc [chain_input fprompt]).2.1,
              rfl, ?_⟩
            simp [List.getLast?_concat]
    case _ hcond =>
      constructor
      · intro e he
        simp at he
      · intro _ h2
        exact absurd rfl h2

/-- C1: on a fresh session holding only the greeting, submitting the
non-empty text "Hello" with no attachments appends exactly one user message
whose content carries "Hello" and, after the backend resolves, exactly one
assistant message wrapping the response: the log grows from length 1 to
length 3 with roles assistant, user, assistant. -/
theorem c1_hello_turn (reencode : List Nat → List Nat) (llm : LLMBackend)
    (k fk wk : Nat) (toks : List String)
    (h : llm [chain_input (format_prompt "Hello")] = (toks, none)) :
    (⟨[INIT_MESSAGE], [], fk, wk⟩ : SessionState).messages.length = 1 ∧
    (main_step reencode llm k ⟨[INIT_MESSAGE], [], fk, wk⟩
        (some "Hello") []).error = none ∧
    (main_step reencode llm k ⟨[INIT_MESSAGE], [], fk, wk⟩
        (some "Hello") []).state.messages =
      [INIT_MESSAGE,
        { role := "user", content := MsgContent.blocks (format_prompt "Hello"),
          images := none },
        { role := "assistant", content := MsgContent.resp ⟨String.join toks⟩,
          images := none }] ∧
    (main_step reencode llm k ⟨[INIT_MESSAGE], [], fk, wk⟩
        (some "Hello") []).state.messages.map Message.role =
      ["assistant", "user", "assistant"] ∧
    (main_step reencode llm k ⟨[INIT_MESSAGE], [], fk, wk⟩
        (some "Hello") []).state.messages.length = 3 := by
  have h' : llm (window_k k (langchain_messages_format
      (⟨[INIT_MESSAGE], [], fk, wk⟩ : SessionState).langchain_messages) ++
        [chain_input (staged_prompt reencode ⟨[INIT_MESSAGE], [], fk, wk⟩
          "Hello" [])]) = (toks, none) := by
    have hw : window_k k (langchain_messages_format
        (⟨[INIT_MESSAGE], [], fk, wk⟩ : SessionState).langchain_messages) =
        [] := window_k_nil k
    rw [hw]
    exact h
  have key : main_step reencode llm k ⟨[INIT_MESSAGE], [], fk, wk⟩
      (some "Hello") [] =
      { state :=
          ⟨([INIT_MESSAGE] ++ [staged_user_message reencode
              ⟨[INIT_MESSAGE], [], fk, wk⟩ "Hello" []]) ++
              [{ role := "assistant",
                 content := MsgContent.resp ⟨String.join toks⟩,
                 images := none }],
            langchain_messages_format [] ++
              [memory_human_entry (staged_prompt reencode
                ⟨[INIT_MESSAGE], [], fk, wk⟩ "Hello" []),
                memory_ai_entry (String.join toks)],
            fk, wk⟩,
        invocations :=
          [window_k k (langchain_messages_format []) ++
            [chain_input (staged_prompt reencode
              ⟨[INIT_MESSAGE], [], fk, wk⟩ "Hello" [])]],
        renders := stream_snapshots toks,
        error := none } := by
    rw [main_step_truthy reencode llm k ⟨[INIT_MESSAGE], [], fk, wk⟩
      "Hello" [] (by decide)]
    exact generate_phase_invoke_ok llm k _ _ _ _ _
      (staged_user_message reencode ⟨[INIT_MESSAGE], [], fk, wk⟩ "Hello" [])
      toks (List.getLast?_concat _)
      (by rw [staged_user_message_role]; decide) h'
  rw [key]
  exact ⟨rfl, rfl, rfl, rfl, rfl⟩

/-- Witness for C1: a backend streaming two tokens for the "Hello" turn. -/
theorem c1_hello_turn_witness :
    (main_step (fun b => b) (fun _ => (["Hel", "lo!"], none)) 10
        ⟨[INIT_MESSAGE], [], 0, 1⟩ (some "Hello") []).state.messages.map
      Message.role = ["assistant", "user", "assistant"] :=
  (c1_hello_turn (fun b => b) (fun _ => (["Hel", "lo!"], none)) 10 0 1
    ["Hel", "lo!"] rfl).2.2.2.1

/-- C7, counterexample: when the backend raises after streaming two tokens,
the exception propagates out of the render before line 389 runs — the
partial display buffer (here "partial") is NOT appended as the assistant
message, the log still ends with the user message, and the render fails —
refuting the claim that the buffer is appended and the driver returns to
Idle. -/
theorem c7_failed_invocation_counterexample :
    (main_step (fun b => b) (fun _ => (["par", "tial"], some "boom")) 10
        ⟨[INIT_MESSAGE], [], 0, 1⟩ (some "Hi") []).error =
      some (RenderError.invokeError "boom") ∧
    (main_step (fun b => b) (fun _ => (["par", "tial"], some "boom")) 10
        ⟨[INIT_MESSAGE], [], 0, 1⟩ (some "Hi") []).renders =
      ["par", "partial"] ∧
    (main_step (fun b => b) (fun _ => (["par", "tial"], some "boom")) 10
        ⟨[INIT_MESSAGE], [], 0, 1⟩ (some "Hi") []).state.messages.map
      Message.role = ["assistant", "user"] :=
  ⟨rfl, rfl, rfl⟩

/-- C7, amended: if the invocation raises, no assistant message is appended
— the log still ends with a non-assistant message, the render fails with
the propagated exception, and exactly one invocation was made (no automatic
retry); if instead the invocation returns, even having streamed zero
tokens, the aggregated (possibly empty) response is appended as the
assistant message, so the log again ends with an assistant message. -/
theorem c7_failed_invocation_amended (reencode : List Nat → List Nat)
    (llm : LLMBackend) (k : Nat) (s : SessionState)
    (prompt : Option String) (files : List UploadedFile) :
    (∀ e, (main_step reencode llm k s prompt files).error =
        some (RenderError.invokeError e) →
      (main_step reencode llm k s prompt files).invocations.length = 1 ∧
      ∃ m, (main_step reencode llm k s prompt files).state.messages.getLast? =
          some m ∧ m.role ≠ "assistant") ∧
    ((main_step reencode llm k s prompt files).error = none →
      (main_step reencode llm k s prompt files).invocations ≠ [] →
      ∃ toks, (main_step reencode llm k s prompt files).renders =
          stream_snapshots toks ∧
        (main_step reencode llm k s prompt files).state.messages.getLast? =
          some { role := "assistant",
                 content := MsgContent.resp ⟨String.join toks⟩,
                 images := none }) := by
  simp only [main_step]
  exact generate_phase_outcomes llm k _ _ _ _ _

/-- Witness for C7: a backend that raises before streaming any token. -/
theorem c7_failed_invocation_witness :
    (main_step (fun b => b) (fun _ => ([], some "down")) 10
        ⟨[INIT_MESSAGE], [], 0, 1⟩ (some "Hey") []).invocations.length = 1 ∧
    ∃ m, (main_step (fun b => b) (fun _ => ([], some "down")) 10
        ⟨[INIT_MESSAGE], [], 0, 1⟩ (some "Hey") []).state.messages.getLast? =
          some m ∧ m.role ≠ "assistant" :=
  (c7_failed_invocation_amended (fun b => b) (fun _ => ([], some "down")) 10
    ⟨[INIT_MESSAGE], [], 0, 1⟩ (some "Hey") []).1 "down" rfl

/-- C8: whenever a new user message is appended (the prompt of the render
is truthy), the backend is invoked with the full structured context — the
memory window over the normalized memory log followed by the new turn, not
the new turn alone — and each streamed token is appended to the display
buffer and re-rendered immediately: render `i + 1` extends render `i` by
exactly token `i + 1`, with one render per token. -/
theorem c8_full_context_streaming (reencode : List Nat → List Nat)
    (llm : LLMBackend) (k : Nat) (s : SessionState) (p : String)
    (files : List UploadedFile) (toks : List String) (hp : p ≠ "")
    (h : llm (window_k k (langchain_messages_format s.langchain_messages) ++
        [chain_input (staged_prompt reencode s p files)]) = (toks, none)) :
    (main_step reencode llm k s (some p) files).invocations =
      [window_k k (langchain_messages_format s.langchain_messages) ++
        [chain_input (staged_prompt reencode s p files)]] ∧
    (main_step reencode llm k s (some p) files).renders =
      stream_snapshots toks ∧
    (main_step reencode llm k s (some p) files).renders.length =
      toks.length ∧
    (∀ t rest, toks = t :: rest →
      (main_step reencode llm k s (some p) files).renders.get? 0 = some t) ∧
    (∀ i u t,
      (main_step reencode llm k s (some p) files).renders.get? i = some u →
      toks.get? (i + 1) = some t →
      (main_step reencode llm k s (some p) files).renders.get? (i + 1) =
        some (u ++ t)) := by
  have key : main_step reencode llm k s (some p) files =
      { state :=
          ⟨(s.messages ++ [staged_user_message reencode s p files]) ++
              [{ role := "assistant",
                 content := MsgContent.resp ⟨String.join toks⟩,
                 images := none }],
            langchain_messages_format s.langchain_messages ++
              [memory_human_entry (staged_prompt reencode s p files),
                memory_ai_entry (String.join toks)],
            s.file_uploader_key, s.widget_key⟩,
        invocations :=
          [window_k k (langchain_messages_format s.langchain_messages) ++
            [chain_input (staged_prompt reencode s p files)]],
        renders := stream_snapshots toks,
        error := none } := by
    rw [main_step_truthy reencode llm k s p files hp]
    exact generate_phase_invoke_ok llm k _ _ _ _ _
      (staged_user_message reencode s p files) toks
      (List.getLast?_concat _)
      (by rw [staged_user_message_role]; decide) h
  rw [key]
  refine ⟨rfl, rfl, stream_snapshots_from_length "" toks, ?_, ?_⟩
  · intro t rest ht
    subst ht
    exact stream_snapshots_zero t rest
  · intro i u t h1 h2
    exact stream_snapshots_step toks i u t h1 h2

/-- Witness for C8: a session with one prior exchange in memory and a
backend streaming two tokens. -/
theorem c8_full_context_streaming_witness :
    (main_step (fun b => b) (fun _ => (["a", "b"], none)) 5
        ⟨[INIT_MESSAGE],
          [⟨"human", LCContent.blocks [ContentBlock.text "prev"]⟩,
            ⟨"ai", LCContent.str "prevresp"⟩], 0, 1⟩
        (some "Hi") []).invocations =
      [window_k 5 (langchain_messages_format
          [⟨"human", LCContent.blocks [ContentBlock.text "prev"]⟩,
            ⟨"ai", LCContent.str "prevresp"⟩]) ++
        [chain_input (staged_prompt (fun b => b)
          ⟨[INIT_MESSAGE],
            [⟨"human", LCContent.blocks [ContentBlock.text "prev"]⟩,
              ⟨"ai", LCContent.str "prevresp"⟩], 0, 1⟩ "Hi" [])]] :=
  (c8_full_context_streaming (fun b => b) (fun _ => (["a", "b"], none)) 5
    ⟨[INIT_MESSAGE],
      [⟨"human", LCContent.blocks [ContentBlock.text "prev"]⟩,
        ⟨"ai", LCContent.str "prevresp"⟩], 0, 1⟩
    "Hi" [] ["a", "b"] (by decide) rfl).1
